import Mathlib

/-!
Verification of the Tapis OAuth2 / flight-discovery integration of this
WebODM fork.  The definitions below are shallow embeddings of the Python
source files:

* `app/auth/tapis_oauth2.py`   (JWT payload decoding / identity extraction)
* `app/models/oauth2.py`       (client, token and CSRF-state rows)
* `app/models/tapis_preferences.py`
* `app/api/tapis_oauth2.py`    (authorize, callback, refresh views)
* `app/services/tapis_storage.py` (flight scan and project materialization)

Time is modelled as integer seconds (`Int`); remote HTTP calls, base64url
decoding and JSON parsing are modelled as oracle functions passed in as
parameters (they are Python-stdlib / network collaborators, external to the
repository).  Database tables are modelled as lists of rows.
-/

namespace WebODM

/-! ### Scalar JSON values and Python truthiness

JSON claim values that the code actually inspects are scalars; a payload is
an association list from claim names to values (a parsed JSON object with
distinct keys). -/

inductive JVal where
  | jnull
  | jbool (b : Bool)
  | jint (n : Int)
  | jstr (s : String)
deriving DecidableEq, Repr

/-- Python truthiness of a scalar JSON value (`None`, `False`, `0`, `""` are
falsy). -/
def JVal.truthy : JVal → Bool
  | .jnull => false
  | .jbool b => b
  | .jint n => n != 0
  | .jstr s => s != ""

/-- The integer Python obtains when an `int`-typed comparison or `int(...)`
conversion is applied to the value; `none` models a raised
`TypeError`/`ValueError`. -/
def JVal.asPyInt : JVal → Option Int
  | .jnull => none
  | .jbool b => some (if b then 1 else 0)
  | .jint n => some n
  | .jstr s => s.toInt?

/-- A parsed JSON object: association list with distinct keys. -/
def Payload := List (String × JVal)

/-- `payload.get(k)`: `none` when the key is absent. -/
def jGet (p : Payload) (k : String) : Option JVal :=
  (p.find? (fun kv => kv.1 == k)).map (fun kv => kv.2)

/-- Python truthiness of `payload.get(k)`-style optional values
(`None` is falsy). -/
def truthyOpt (o : Option JVal) : Bool :=
  match o with
  | some v => v.truthy
  | none => false

/-- Python `a or b` over two `dict.get` results: the first operand is kept
when it is truthy, otherwise the second operand is the value of the
expression. -/
def pyOr (a b : Option JVal) : Option JVal :=
  match a with
  | some v => if v.truthy then some v else b
  | none => b

/-! ### JWT decoding (`TapisOAuth2Backend._validate_token_with_tapis`) -/

/-- Python `s.split('.')` over the character list of the string:
splits at every `'.'`, keeping empty segments. -/
def splitOnDot : List Char → List (List Char)
  | [] => [[]]
  | c :: rest =>
    let r := splitOnDot rest
    if c = '.' then [] :: r
    else
      match r with
      | [] => [[c]]
      | h :: t => (c :: h) :: t

/-- Restore base64 padding: append `'='` until the length is a multiple
of 4 (lines 66-69 of `app/auth/tapis_oauth2.py`). -/
def addB64Padding (l : List Char) : List Char :=
  let missing := l.length % 4
  if missing = 0 then l else l ++ List.replicate (4 - missing) '='

/-- The `user_info` dict built from the decoded JWT payload.  Each field is
the value of the corresponding `payload.get(...)` chain (possibly `None`). -/
structure UserInfo where
  username : Option JVal
  tenant_id : JVal
  sub : Option JVal
  exp : Option JVal
  iat : Option JVal
  email : Option JVal
  given_name : Option JVal
  family_name : Option JVal
  display_name : Option JVal
deriving DecidableEq, Repr

/-- `TapisOAuth2Backend._validate_token_with_tapis` from
`app/auth/tapis_oauth2.py` (lines 50-112).

`decode` is the oracle composing `base64.urlsafe_b64decode` with
`json.loads`: it returns `none` when either raises (invalid base64url or
invalid JSON), in which case the Python code catches the error and returns
`None`.  `tenantDefault` is `settings.TAPIS_TENANT_ID`; `now` is
`int(time.time())`.  A comparison of `now` with a non-numeric `exp` raises
`TypeError`, which the enclosing handler turns into `None` as well. -/
def validate_token_with_tapis (decode : List Char → Option Payload)
    (tenantDefault : String) (now : Int) (access_token : String) :
    Option UserInfo :=
  match splitOnDot access_token.data with
  | [_, payload_b64, _] =>
    match decode (addB64Padding payload_b64) with
    | none => none
    | some payload =>
      let username := pyOr (jGet payload "tapis/username")
        (pyOr (jGet payload "username") (jGet payload "sub"))
      let info : UserInfo := {
        username := username
        tenant_id := match pyOr (jGet payload "tapis/tenant_id") (jGet payload "tenant_id") with
          | some v => if v.truthy then v else .jstr tenantDefault
          | none => .jstr tenantDefault
        sub := jGet payload "sub"
        exp := jGet payload "exp"
        iat := jGet payload "iat"
        email := pyOr (jGet payload "email") (jGet payload "tapis/email")
        given_name := pyOr (jGet payload "given_name") (jGet payload "tapis/given_name")
        family_name := pyOr (jGet payload "family_name") (jGet payload "tapis/family_name")
        display_name := pyOr (jGet payload "display_name") (jGet payload "tapis/display_name") }
      match jGet payload "exp" with
      | some e =>
        if e.truthy then
          match e.asPyInt with
          | some n =>
            if now > n then none
            else if truthyOpt username then some info else none
          | none => none
        else if truthyOpt username then some info else none
      | none => if truthyOpt username then some info else none
  | _ => none

/-! ### Stored OAuth2 token rows (`app/models/oauth2.py`, `TapisOAuth2Token`) -/

/-- A persisted `TapisOAuth2Token` row as the `is_expired` / `is_valid`
properties read it: the `access_token` text field and the nullable
`expires_at` timestamp. -/
structure StoredToken where
  access_token : String
  expires_at : Option Int
deriving DecidableEq, Repr

/-- `TapisOAuth2Token.is_expired` (lines 84-89): `False` when `expires_at`
is null, otherwise `timezone.now() > expires_at`. -/
def StoredToken.is_expired (t : StoredToken) (now : Int) : Bool :=
  match t.expires_at with
  | none => false
  | some e => now > e

/-- `TapisOAuth2Token.is_valid` (lines 91-94): truthiness of
`self.access_token and not self.is_expired`. -/
def StoredToken.is_valid (t : StoredToken) (now : Int) : Bool :=
  t.access_token != "" && !(t.is_expired now)

/-! ### OAuth2 CSRF state rows (`app/models/oauth2.py`, `TapisOAuth2State`)
and the authorize view -/

/-- A persisted `TapisOAuth2State` row (the fields the authorize/callback
views read). -/
structure StateRow where
  stateVal : String
  redirect_after_auth : String
  expires_at : Int
  clientId : String
deriving DecidableEq, Repr

/-- `TapisOAuth2State.is_expired` (lines 120-123 of `app/models/oauth2.py`):
`timezone.now() > expires_at`. -/
def StateRow.is_expired (r : StateRow) (now : Int) : Bool :=
  now > r.expires_at

/-- The `TapisOAuth2State` row created by `TapisOAuth2AuthorizeView.get`
(lines 42-49 of `app/api/tapis_oauth2.py`): expiry is
`timezone.now() + timedelta(minutes=10)`, i.e. `now + 600` seconds.
`stateVal` is the random string produced by `generate_state`. -/
def authorize_create_state (now : Int) (stateVal redirect_after clientId : String) :
    StateRow :=
  { stateVal := stateVal
    redirect_after_auth := redirect_after
    expires_at := now + 600
    clientId := clientId }

/-! ### Discovery trigger ordering
(`TapisOAuth2CallbackView._trigger_flight_discovery`,
`TapisUserPreferences.update_last_discovery`) -/

/-- Observable events of one `_trigger_flight_discovery` run, in program
order.  `taskDispatched` is the return of `delay(...)` (the background
job's outcome is not awaited); `scanCompleted` is the synchronous
`discover_and_create_projects` call returning its results dict;
`scanRaised` is that call raising; `timestampUpdated` is
`preferences.update_last_discovery()`. -/
inductive DiscoveryEvent where
  | taskDispatched
  | scanCompleted (projects_created : Nat)
  | scanRaised
  | timestampUpdated
deriving DecidableEq, Repr

/-- `TapisOAuth2CallbackView._trigger_flight_discovery` (lines 231-277 of
`app/api/tapis_oauth2.py`) as its event trace.

`shouldRun` is `preferences.should_run_auto_discovery()`;
`celeryAvailable` is false exactly when importing the Celery task raises
`ImportError` (the synchronous in-request fallback); `syncScanRaises`
models the synchronous discovery call raising (its exception handler logs
and performs no timestamp update); `projectsCreated` is the
`results['projects_created']` count of a successful synchronous run. -/
def trigger_flight_discovery (shouldRun celeryAvailable syncScanRaises : Bool)
    (projectsCreated : Nat) : List DiscoveryEvent :=
  if !shouldRun then []
  else if celeryAvailable then
    [.taskDispatched, .timestampUpdated]
  else if syncScanRaises then
    [.scanRaised]
  else
    [.scanCompleted projectsCreated, .timestampUpdated]

/-- Index of the first event satisfying `p`, in program order. -/
def firstIdxP (p : DiscoveryEvent → Bool) : List DiscoveryEvent → Option Nat
  | [] => none
  | e :: rest =>
    if p e then some 0
    else (firstIdxP p rest).map (· + 1)

/-- The event revealing the scan's outcome within the request. -/
def DiscoveryEvent.isOutcome : DiscoveryEvent → Bool
  | .scanCompleted _ => true
  | .scanRaised => true
  | _ => false

/-- The last-discovery timestamp update event. -/
def DiscoveryEvent.isUpdate : DiscoveryEvent → Bool
  | .timestampUpdated => true
  | _ => false

/-! ### The callback view (`TapisOAuth2CallbackView.get`) -/

/-- The value found under `'access_token'` in the unwrapped token response:
either a plain string, or a one-level-nested dict (the Tapis shape
`{access_token: {access_token: <jwt>, ...}}`). -/
inductive AccessTokenField where
  | fstr (s : String)
  | fdict (entries : List (String × JVal))
deriving DecidableEq, Repr

/-- Lookup in the nested dict. -/
def dGet (d : List (String × JVal)) (k : String) : Option JVal :=
  (d.find? (fun kv => kv.1 == k)).map (fun kv => kv.2)

/-- The `result` dict returned by `_exchange_code_for_tokens`, restricted to
the keys the callback reads.  `none` fields model absent keys. -/
structure TokenData where
  access_token : Option AccessTokenField
  refresh_token : Option JVal
  token_type : Option JVal
  scope : Option JVal
  expires_in : Option JVal
deriving DecidableEq, Repr

/-- A persisted `TapisOAuth2Token` row as written by the callback's
`_store_user_tokens` (the `username` identifying the user is the JWT
username claim value; `access_token` holds whatever Python value
`token_data.get('access_token')` produced). -/
structure TokenRowFull where
  userName : JVal
  clientId : String
  access_token : Option AccessTokenField
  refresh_token : JVal
  token_type : JVal
  scope : JVal
  expires_at : Option Int
deriving DecidableEq, Repr

/-- The persistent store the callback touches: the `TapisOAuth2State` table
and the `TapisOAuth2Token` table. -/
structure Db where
  states : List StateRow
  tokens : List TokenRowFull
deriving DecidableEq, Repr

/-- External collaborators of one callback request: the result of
`_exchange_code_for_tokens` (already unwrapped from the
`{status, result}` envelope; `none` for any failure inside that helper) and
the base64url+JSON oracle with the default tenant used by the
authentication backend. -/
structure CallbackEnv where
  exchangeResult : Option TokenData
  decode : List Char → Option Payload
  tenantDefault : String

/-- HTTP responses the callback view produces. -/
inductive CallbackResponse where
  | redirectTo (url : String)
  | badRequest (msg : String)
  | unauthorized (msg : String)
  | serverError (msg : String)
deriving DecidableEq, Repr

/-- Python truthiness of `request.GET.get(k)` (absent → `None` → falsy,
empty string → falsy). -/
def pyTruthy (o : Option String) : Bool :=
  match o with
  | some s => s != ""
  | none => false

/-- Lines 118-126 of `TapisOAuth2CallbackView.get`: normalize the
`access_token` field to the bare JWT value.  A dict containing an
`'access_token'` key yields that entry; a plain string yields itself;
anything else (here: a dict without the key) is the invalid-structure
branch (`none` → HTTP 500). -/
def extractJwt : AccessTokenField → Option JVal
  | .fdict d => dGet d "access_token"
  | .fstr s => some (.jstr s)

/-- `TapisOAuth2Backend.authenticate` (lines 21-48 of
`app/auth/tapis_oauth2.py`) applied to the normalized JWT value: falsy
tokens are rejected; non-string tokens raise inside
`_validate_token_with_tapis` (`.split` on a non-string), which the handler
turns into `None`; otherwise the decoded identity's username claim value is
the user (`_get_or_create_user` re-checks its truthiness). -/
def backend_authenticate (env : CallbackEnv) (now : Int) (jwt : JVal) :
    Option JVal :=
  if !jwt.truthy then none
  else
    match jwt with
    | .jstr s =>
      match validate_token_with_tapis env.decode env.tenantDefault now s with
      | none => none
      | some info =>
        match info.username with
        | some u => if u.truthy then some u else none
        | none => none
    | _ => none

/-- The expiry computation shared by `_store_user_tokens` (lines 207-211)
and the refresh view (lines 305-308): `expires_at` is
`timezone.now() + timedelta(seconds=int(expires_in))` when `expires_in` is
truthy, null otherwise; the outer `none` models `int(expires_in)`
raising. -/
def pyExpiresAt (v : Option JVal) (now : Int) : Option (Option Int) :=
  match v with
  | some v =>
    if v.truthy then
      match v.asPyInt with
      | some n => some (some (now + n))
      | none => none
    else some none
  | none => some none

/-- The row written by `_store_user_tokens` (lines 202-229), or `none` when
`int(expires_in)` raises (the exception is caught and logged, and no row is
written). -/
def store_user_tokens_row (user : JVal) (clientId : String) (td : TokenData)
    (now : Int) : Option TokenRowFull :=
  (pyExpiresAt td.expires_in now).map (fun ex =>
    { userName := user
      clientId := clientId
      access_token := td.access_token
      refresh_token := td.refresh_token.getD (.jstr "")
      token_type := td.token_type.getD (.jstr "Bearer")
      scope := td.scope.getD (.jstr "")
      expires_at := ex })

/-- `update_or_create(user=..., client=..., defaults=...)`: replace the
unique row with the same `(user, client)` pair, or append a new row. -/
def upsertToken (row : TokenRowFull) (toks : List TokenRowFull) :
    List TokenRowFull :=
  if toks.any (fun t => t.userName == row.userName && t.clientId == row.clientId) then
    toks.map (fun t =>
      if t.userName == row.userName && t.clientId == row.clientId then row else t)
  else toks ++ [row]

/-- `_store_user_tokens` as a transformation of the token table (its
exception handler makes a failed write a no-op for the enclosing flow). -/
def store_user_tokens (user : JVal) (clientId : String) (td : TokenData)
    (now : Int) (toks : List TokenRowFull) : List TokenRowFull :=
  match store_user_tokens_row user clientId td now with
  | none => toks
  | some row => upsertToken row toks

/-- `TapisOAuth2CallbackView.get` (lines 75-161 of
`app/api/tapis_oauth2.py`) as a function of the request parameters, the
current time, the database and the external collaborators; returns the
response and the resulting database.

The state lookup models `objects.get(state=state)`: no row → `DoesNotExist`
→ 400 "Invalid OAuth2 state"; more than one row (impossible under the
column's uniqueness constraint) → `MultipleObjectsReturned`, caught by the
generic handler → 500.  `_trigger_flight_discovery` catches all of its own
exceptions and touches neither table modelled here (its behaviour is
modelled separately by `trigger_flight_discovery`). -/
def callback_get (env : CallbackEnv) (now : Int)
    (code state error : Option String) (db : Db) : CallbackResponse × Db :=
  if pyTruthy error then
    (.badRequest ("OAuth2 error: " ++ error.getD ""), db)
  else if !pyTruthy code || !pyTruthy state then
    (.badRequest "Missing code or state parameter", db)
  else
    match db.states.filter (fun r => r.stateVal == state.getD "") with
    | [] => (.badRequest "Invalid OAuth2 state", db)
    | [state_obj] =>
      if state_obj.is_expired now then
        (.badRequest "OAuth2 state expired",
          { db with states := db.states.erase state_obj })
      else
        match env.exchangeResult with
        | none => (.serverError "Failed to exchange code for tokens", db)
        | some token_data =>
          match token_data.access_token with
          | none => (.serverError "No access token in Tapis response", db)
          | some atField =>
            match extractJwt atField with
            | none =>
              (.serverError "Invalid access token structure in Tapis response", db)
            | some jwt_token =>
              match backend_authenticate env now jwt_token with
              | none => (.unauthorized "Failed to authenticate user with Tapis", db)
              | some user =>
                let toks := store_user_tokens user state_obj.clientId token_data now db.tokens
                let redirect_url :=
                  if state_obj.redirect_after_auth != "" then
                    state_obj.redirect_after_auth
                  else "/dashboard/"
                (.redirectTo redirect_url,
                  { states := db.states.erase state_obj, tokens := toks })
    | _ :: _ :: _ => (.serverError "OAuth2 callback failed", db)

/-! ### Token refresh (`TapisOAuth2TokenRefreshView.post`, lines 299-318) -/

/-- The `token_obj` row as the refresh view reads and writes it: the field
values are the Python attribute values (response JSON values before
`save()` serializes them). -/
structure RefreshRow where
  access_token : Option JVal
  refresh_token : JVal
  token_type : JVal
  scope : JVal
  expires_at : Option Int
deriving DecidableEq, Repr

/-- The token-row update performed by `TapisOAuth2TokenRefreshView.post`
(lines 304-318) after a successful refresh response (`new_token_data`,
modelled as the parsed JSON object).  `none` models `int(expires_in)`
raising, in which case the generic handler answers 500 and `save()` is
never reached.  Only the four assigned fields change; in particular
`refresh_token` is reassigned exactly when the response contains a
`'refresh_token'` key. -/
def refresh_token_update (old : RefreshRow) (resp : Payload) (now : Int) :
    Option RefreshRow :=
  (pyExpiresAt (jGet resp "expires_in") now).map (fun ex =>
    { old with
      access_token := jGet resp "access_token"
      token_type := (jGet resp "token_type").getD (.jstr "Bearer")
      expires_at := ex
      refresh_token :=
        match jGet resp "refresh_token" with
        | some v => v
        | none => old.refresh_token })

/-! ### Flight scanner (`app/services/tapis_storage.py`) -/

/-- One entry of a Tapis file-listing response: the `type` and `name`
fields the scanner reads (`""` stands for an absent/null `name`, which is
falsy in Python exactly like a missing key). -/
structure RemoteItem where
  type : String
  name : String
deriving DecidableEq, Repr

/-- A flight match produced by `_check_flight_directory` (the
`discovered_at` wall-clock field is omitted from the model). -/
structure FlightInfo where
  flight_name : String
  system_id : String
  images_path : String
  image_count : Nat
deriving DecidableEq, Repr

/-- ASCII lowercasing of a string, character-wise (Python `str.lower` on
the ASCII names involved). -/
def lowerStr (s : String) : String :=
  ⟨s.data.map Char.toLower⟩

/-- Boolean prefix test on character lists. -/
def isPrefixB : List Char → List Char → Bool
  | [], _ => true
  | _ :: _, [] => false
  | a :: as, b :: bs => a == b && isPrefixB as bs

/-- Boolean substring (contiguous infix) test: does `hay` contain
`needle`? -/
def isInfixB (needle : List Char) : List Char → Bool
  | [] => isPrefixB needle []
  | b :: bs => isPrefixB needle (b :: bs) || isInfixB needle bs

/-- Python `name.lower().endswith(suffix)` for a literal ASCII suffix. -/
def endsWithLower (name : String) (suffix : String) : Bool :=
  isPrefixB suffix.data.reverse (lowerStr name).data.reverse

/-- The suffix test of line 137: `.lower().endswith(('.jpg', '.jpeg'))`. -/
def isJpgName (name : String) : Bool :=
  endsWithLower name ".jpg" || endsWithLower name ".jpeg"

/-- The predicate of line 124: `item.get('type') == 'dir' and
item.get('name') == 'images'`. -/
def isImagesDir (it : RemoteItem) : Bool :=
  it.type == "dir" && it.name == "images"

/-- The predicate of lines 135-137: a file entry whose name has a
`.jpg`/`.jpeg` suffix. -/
def isJpgFile (it : RemoteItem) : Bool :=
  it.type == "file" && isJpgName it.name

/-- The loop condition of lines 96-98: a directory entry with a truthy
name. -/
def isNamedDir (it : RemoteItem) : Bool :=
  it.type == "dir" && it.name != ""

/-- A directory entry with the given name (used to count how often a
flight name occurs in a root listing). -/
def dirNamed (f : String) (it : RemoteItem) : Bool :=
  it.type == "dir" && it.name == f

/-- A flight match for the given flight name. -/
def flightNamed (f : String) (fi : FlightInfo) : Bool :=
  fi.flight_name == f

/-- Endpoint of the root listing request of `scan_system_for_flights`. -/
def rootEndpoint (system_id : String) : String :=
  "v3/files/ops/" ++ system_id ++ "/"

/-- Endpoint of the `{flight}/code` listing request. -/
def codeEndpoint (system_id flight_name : String) : String :=
  "v3/files/ops/" ++ system_id ++ "/" ++ flight_name ++ "/code/"

/-- Endpoint of the `{flight}/code/images` listing request. -/
def imagesEndpoint (system_id flight_name : String) : String :=
  "v3/files/ops/" ++ system_id ++ "/" ++ flight_name ++ "/code/images/"

/-- A remote-listing oracle: maps a request endpoint to the `result` list
of the response, or `none` when the request raises
(`requests.RequestException` / non-2xx status). -/
def Listing := String → Option (List RemoteItem)

/-- `TapisStorageService._check_flight_directory` (lines 108-154): requires
a `{flight}/code` listing, a subdirectory named `images` in it, and at
least one file in `{flight}/code/images` whose lowercased name ends in
`.jpg`/`.jpeg`; failed listing requests make the branch report no match. -/
def check_flight_directory (fs : Listing) (system_id flight_name : String) :
    Option FlightInfo :=
  match fs (codeEndpoint system_id flight_name) with
  | none => none
  | some code_listing =>
    if !code_listing.any isImagesDir then none
    else
      match fs (imagesEndpoint system_id flight_name) with
      | none => none
      | some images_listing =>
        let jpg_count := (images_listing.filter isJpgFile).length
        if jpg_count > 0 then
          some { flight_name := flight_name
                 system_id := system_id
                 images_path := flight_name ++ "/code/images"
                 image_count := jpg_count }
        else none

/-- The loop body of `scan_system_for_flights` applied to one root-listing
entry: check the directory named by the entry. -/
def checkItem (fs : Listing) (system_id : String) (it : RemoteItem) :
    Option FlightInfo :=
  check_flight_directory fs system_id it.name

/-- `TapisStorageService.scan_system_for_flights` (lines 79-106): list the
system root (a failed request yields the empty flight list), then check
every top-level directory entry with a truthy name. -/
def scan_system_for_flights (fs : Listing) (system_id : String) :
    List FlightInfo :=
  match fs (rootEndpoint system_id) with
  | none => []
  | some root_listing =>
    (root_listing.filter isNamedDir).filterMap (checkItem fs system_id)

/-! ### Project materialization and duplicate detection
(`TapisFlightDiscoveryService`) -/

/-- A WebODM `Project` row as the discovery service reads and writes it. -/
structure Project where
  owner : String
  name : String
  tags : String
deriving DecidableEq, Repr

/-- Django `tags__icontains=needle`: case-insensitive substring match. -/
def icontains (haystack needle : String) : Bool :=
  isInfixB (needle.data.map Char.toLower) (haystack.data.map Char.toLower)

/-- `TapisFlightDiscoveryService._find_existing_project` (lines 356-365):
first project of the same owner whose tag string case-insensitively
contains `"{system_id},{flight_name}"`. -/
def find_existing_project (user : String) (flight : FlightInfo)
    (projects : List Project) : Option Project :=
  projects.find? (fun p =>
    p.owner == user && icontains p.tags (flight.system_id ++ "," ++ flight.flight_name))

/-- `TapisStorageService.create_project_from_flight` (lines 156-189): the
created project row (name and the comma-joined tag string; description and
task creation omitted). -/
def create_project_from_flight (user : String) (flight : FlightInfo) : Project :=
  { owner := user
    name := flight.flight_name ++ " (" ++ flight.system_id ++ ")"
    tags := "tapis,flight," ++ flight.system_id ++ "," ++ flight.flight_name }

/-- The project-creation loop of
`TapisFlightDiscoveryService.discover_and_create_projects`
(lines 325-342), given the flights collected by the scans: for each flight
in order, skip it when `_find_existing_project` finds a match in the
current project table, otherwise create its project.  Returns the final
project table together with the `created_projects` entries (each created
project paired with its flight). -/
def discover_and_create_projects (user : String) :
    List FlightInfo → List Project → List Project × List (Project × FlightInfo)
  | [], projects => (projects, [])
  | flight :: rest, projects =>
    match find_existing_project user flight projects with
    | some _ => discover_and_create_projects user rest projects
    | none =>
      let p := create_project_from_flight user flight
      let out := discover_and_create_projects user rest (projects ++ [p])
      (out.1, (p, flight) :: out.2)

/-- A `created_projects` entry reporting the given flight's
`(system_id, flight_name)` pair. -/
def createdForFlight (f : FlightInfo) (e : Project × FlightInfo) : Bool :=
  e.2.system_id == f.system_id && e.2.flight_name == f.flight_name

/-! ### Spec-side auxiliary definitions and concrete fixtures used by the
claim theorems and their witnesses -/

/-- The username-claim chain of line 79 of `app/auth/tapis_oauth2.py`. -/
def usernameChain (payload : Payload) : Option JVal :=
  pyOr (jGet payload "tapis/username")
    (pyOr (jGet payload "username") (jGet payload "sub"))

/-- Spec-side reading of "the first of these claims that resolves": the
first key in the list whose payload value is truthy. -/
def firstTruthyClaim (payload : Payload) : List String → Option JVal
  | [] => none
  | k :: ks =>
    match jGet payload k with
    | some v => if v.truthy then some v else firstTruthyClaim payload ks
    | none => firstTruthyClaim payload ks

/-- The username claim keys, in the order the backend checks them. -/
def usernameKeys : List String := ["tapis/username", "username", "sub"]

/-- `true` when `_store_user_tokens` will not raise on `int(expires_in)`,
i.e. the stored-token write actually happens. -/
def expiresInOk : Option JVal → Bool
  | none => true
  | some v => !v.truthy || v.asPyInt.isSome

/-- Fixture: a JWT payload for user `alice` with a far-future expiry. -/
def goodPayload : Payload :=
  [("username", .jstr "alice"), ("exp", .jint 9999999999)]

/-- Fixture: a decode oracle that parses every segment into
`goodPayload`. -/
def goodDecode : List Char → Option Payload := fun _ => some goodPayload

/-- Fixture: an unwrapped token response with a plain string access
token. -/
def goodTokenData : TokenData :=
  { access_token := some (.fstr "h.p.s")
    refresh_token := some (.jstr "r1")
    token_type := none
    scope := none
    expires_in := some (.jint 3600) }

/-- Fixture: callback collaborators for a fully successful login. -/
def goodEnv : CallbackEnv :=
  { exchangeResult := some goodTokenData
    decode := goodDecode
    tenantDefault := "tacc" }

/-- Fixture: the nested Tapis access-token shape
`{access_token: "h.p.s", ...}`. -/
def nestedDict : List (String × JVal) :=
  [("access_token", .jstr "h.p.s"), ("expires_at", .jstr "later")]

/-- Fixture: a token response carrying the nested access-token shape. -/
def nestedTokenData : TokenData :=
  { access_token := some (.fdict nestedDict)
    refresh_token := some (.jstr "r1")
    token_type := none
    scope := none
    expires_in := some (.jint 3600) }

/-- Fixture: callback collaborators returning the nested shape. -/
def nestedEnv : CallbackEnv :=
  { exchangeResult := some nestedTokenData
    decode := goodDecode
    tenantDefault := "tacc" }

/-- Fixture: a stored state row `S1` created at time 0 (expiry 600). -/
def stateRowS1 : StateRow :=
  { stateVal := "S1"
    redirect_after_auth := "/after/"
    expires_at := 600
    clientId := "democlient" }

/-- Fixture: a database holding exactly the `S1` state row. -/
def dbS1 : Db := { states := [stateRowS1], tokens := [] }

/-- Fixture: payload whose `exp` claim is the integer 0 (falsy in Python,
so the expiry check is skipped). -/
def payloadExpZero : Payload :=
  [("username", .jstr "alice"), ("exp", .jint 0)]

/-- Fixture: payload whose provider-namespaced username claim is present
but empty. -/
def payloadEmptyTapisUser : Payload :=
  [("tapis/username", .jstr ""), ("username", .jstr "bob"),
   ("exp", .jint 9999999999)]

/-- Fixture: remote listings for a system `sys1` with one well-formed
flight `FlightX` (one `.JPG` image) and one directory without a `code`
structure. -/
def fsGood : Listing := fun path =>
  if path == rootEndpoint "sys1" then
    some [⟨"dir", "FlightX"⟩, ⟨"dir", "Other"⟩]
  else if path == codeEndpoint "sys1" "FlightX" then
    some [⟨"dir", "images"⟩]
  else if path == imagesEndpoint "sys1" "FlightX" then
    some [⟨"file", "a.JPG"⟩, ⟨"file", "readme.txt"⟩]
  else if path == codeEndpoint "sys1" "Other" then
    some [⟨"file", "x"⟩]
  else none

/-- Fixture: like `fsGood`, but `FlightX/code` has no `images`
subdirectory. -/
def fsNoImages : Listing := fun path =>
  if path == rootEndpoint "sys1" then some [⟨"dir", "FlightX"⟩]
  else if path == codeEndpoint "sys1" "FlightX" then
    some [⟨"dir", "data"⟩, ⟨"file", "notes.txt"⟩]
  else none

/-- Fixture: the flight match of `FlightX` on `sys1`. -/
def flightX : FlightInfo :=
  { flight_name := "FlightX"
    system_id := "sys1"
    images_path := "FlightX/code/images"
    image_count := 1 }

/-- Fixture: a previously materialized project carrying the
`FlightX`/`sys1` tag pair. -/
def projX : Project :=
  { owner := "alice"
    name := "FlightX (sys1)"
    tags := "tapis,flight,sys1,FlightX" }

/-- Fixture: an existing refresh-view token row. -/
def oldRefreshRow : RefreshRow :=
  { access_token := some (.jstr "oldA")
    refresh_token := .jstr "oldR"
    token_type := .jstr "Bearer"
    scope := .jstr "sc"
    expires_at := some 50 }

/-- Fixture: a refresh response with `expires_in` equal to 0 and no
rotated refresh token. -/
def refreshRespZero : Payload :=
  [("access_token", .jstr "newA"), ("expires_in", .jint 0)]

/-! ## Claim theorems -/

/-- C8: for every stored token, if `expires_at` is set and in the past
then `is_valid` is false; if `expires_at` is null then `is_valid` is true
exactly when the `access_token` field is non-empty. -/
theorem C8_token_validity (t : StoredToken) (now : Int) :
    (∀ e, t.expires_at = some e → now > e → t.is_valid now = false) ∧
    (t.expires_at = none → (t.is_valid now = true ↔ t.access_token ≠ "")) := by
  constructor
  · intro e he hpast
    simp [StoredToken.is_valid, StoredToken.is_expired, he, hpast]
  · intro hnone
    simp [StoredToken.is_valid, StoredToken.is_expired, hnone]

/-- Witness for C8 at concrete tokens: an expired token is invalid, and a
token with no expiry is valid exactly when its access token is
non-empty. -/
theorem C8_token_validity_witness :
    StoredToken.is_valid ⟨"tok", some 10⟩ 20 = false ∧
    (StoredToken.is_valid ⟨"tok", none⟩ 20 = true ↔ ("tok" : String) ≠ "") :=
  ⟨(C8_token_validity ⟨"tok", some 10⟩ 20).1 10 rfl (by decide),
   (C8_token_validity ⟨"tok", none⟩ 20).2 rfl⟩

/-- C6: a token whose dot-split does not have exactly 3 segments is
rejected with no identity (the embedding is a total function, so no
exception escapes), and so is a token whose padded second segment fails
base64url/JSON decoding (`decode` returns `none`). -/
theorem C6_malformed_token_rejected (decode : List Char → Option Payload)
    (tenantDefault : String) (now : Int) (tok : String) :
    ((splitOnDot tok.data).length ≠ 3 →
      validate_token_with_tapis decode tenantDefault now tok = none) ∧
    (∀ h p s, splitOnDot tok.data = [h, p, s] →
      decode (addB64Padding p) = none →
      validate_token_with_tapis decode tenantDefault now tok = none) := by
  constructor
  · intro hlen
    rcases hs : splitOnDot tok.data with _ | ⟨a, _ | ⟨b, _ | ⟨c, _ | ⟨d, l⟩⟩⟩⟩
    · simp [validate_token_with_tapis, hs]
    · simp [validate_token_with_tapis, hs]
    · simp [validate_token_with_tapis, hs]
    · rw [hs] at hlen; simp at hlen
    · simp [validate_token_with_tapis, hs]
  · intro h p s hs hdec
    simp [validate_token_with_tapis, hs, hdec]

/-- Witness for C6: a 1-segment token and a 3-segment token with an
undecodable payload are both rejected. -/
theorem C6_malformed_token_rejected_witness :
    validate_token_with_tapis goodDecode "tacc" 0 "ab" = none ∧
    validate_token_with_tapis (fun _ => none) "tacc" 0 "a.b.c" = none :=
  ⟨(C6_malformed_token_rejected goodDecode "tacc" 0 "ab").1 (by decide),
   (C6_malformed_token_rejected (fun _ => none) "tacc" 0 "a.b.c").2
     ['a'] ['b'] ['c'] (by decide) rfl⟩

/-- C7 counterexample: in the synchronous fallback run (Celery
unavailable, scan succeeds), the trace places the scan's outcome at index
0 and the timestamp update at index 1, so the timestamp is not updated
before the scan's outcome is known. -/
theorem C7_counterexample :
    trigger_flight_discovery true false false 0 =
      [.scanCompleted 0, .timestampUpdated] ∧
    firstIdxP DiscoveryEvent.isOutcome (trigger_flight_discovery true false false 0) =
      some 0 ∧
    firstIdxP DiscoveryEvent.isUpdate (trigger_flight_discovery true false false 0) =
      some 1 ∧
    ¬ (1 < 0) := by decide

/-- C7 (amended): in the asynchronous path the timestamp is updated right
after dispatch, before any scan outcome is observable in-request; in the
synchronous fallback the timestamp is updated only after the scan's
outcome is known, and not at all when the scan raises. -/
theorem C7_trigger_timestamp_order (shouldRun celery raises : Bool) (n : Nat)
    (h : shouldRun = true) :
    (celery = true →
      firstIdxP DiscoveryEvent.isUpdate
          (trigger_flight_discovery shouldRun celery raises n) = some 1 ∧
      firstIdxP DiscoveryEvent.isOutcome
          (trigger_flight_discovery shouldRun celery raises n) = none) ∧
    (celery = false → raises = false →
      firstIdxP DiscoveryEvent.isOutcome
          (trigger_flight_discovery shouldRun celery raises n) = some 0 ∧
      firstIdxP DiscoveryEvent.isUpdate
          (trigger_flight_discovery shouldRun celery raises n) = some 1) ∧
    (celery = false → raises = true →
      firstIdxP DiscoveryEvent.isUpdate
          (trigger_flight_discovery shouldRun celery raises n) = none) := by
  subst h
  cases celery <;> cases raises <;>
    simp [trigger_flight_discovery, firstIdxP, DiscoveryEvent.isUpdate,
      DiscoveryEvent.isOutcome]

/-- Witness for C7's amended statement at the asynchronous path. -/
theorem C7_trigger_timestamp_order_witness :
    firstIdxP DiscoveryEvent.isUpdate (trigger_flight_discovery true true false 0) =
      some 1 ∧
    firstIdxP DiscoveryEvent.isOutcome (trigger_flight_discovery true true false 0) =
      none :=
  (C7_trigger_timestamp_order true true false 0 rfl).1 rfl

/-- C9 counterexample: a refresh response with `expires_in = 0` (a present
key) leaves the stored expiry null instead of setting it to
`now + 0`. -/
theorem C9_counterexample :
    (refresh_token_update oldRefreshRow refreshRespZero 1000).map RefreshRow.expires_at =
      some none ∧
    (refresh_token_update oldRefreshRow refreshRespZero 1000).map RefreshRow.expires_at ≠
      some (some (1000 + 0)) := by decide

/-- C9 (amended): on a successful refresh update the stored access token,
token type and expiry are overwritten from the response — the expiry
becomes `now + expires_in` when `expires_in` is present and non-zero, and
null when it is absent or zero — while the stored refresh token is
replaced exactly when the response contains a `refresh_token` key, and the
scope field is untouched. -/
theorem C9_refresh_overwrites (old : RefreshRow) (resp : Payload) (now : Int)
    (new : RefreshRow) (hok : refresh_token_update old resp now = some new) :
    new.access_token = jGet resp "access_token" ∧
    new.token_type = (jGet resp "token_type").getD (.jstr "Bearer") ∧
    new.refresh_token = ((jGet resp "refresh_token").getD old.refresh_token) ∧
    new.scope = old.scope ∧
    (∀ n, jGet resp "expires_in" = some (.jint n) → n ≠ 0 →
      new.expires_at = some (now + n)) ∧
    ((jGet resp "expires_in" = none ∨ jGet resp "expires_in" = some (.jint 0)) →
      new.expires_at = none) := by
  unfold refresh_token_update at hok
  obtain ⟨ex, hex, hnew⟩ := Option.map_eq_some'.mp hok
  subst hnew
  refine ⟨rfl, rfl, ?_, rfl, ?_, ?_⟩
  · cases jGet resp "refresh_token" <;> rfl
  · intro n hn hn0
    rw [hn] at hex
    simp only [pyExpiresAt, JVal.truthy, JVal.asPyInt, bne_iff_ne, ne_eq, hn0,
      not_false_eq_true, if_true, Option.some_inj] at hex
    exact hex.symm
  · intro hcase
    rcases hcase with hnone | hzero
    · rw [hnone] at hex
      simp only [pyExpiresAt, Option.some_inj] at hex
      exact hex.symm
    · rw [hzero] at hex
      simp only [pyExpiresAt, JVal.truthy, bne_self_eq_false, Bool.false_eq_true,
        if_false, Option.some_inj] at hex
      exact hex.symm

/-- Witness for C9's amended statement: a refresh with a fresh access
token and `expires_in = 3600` and no rotated refresh token keeps the old
refresh token and sets the new expiry. -/
theorem C9_refresh_overwrites_witness :
    RefreshRow.access_token
        { access_token := some (.jstr "newA")
          refresh_token := .jstr "oldR"
          token_type := .jstr "Bearer"
          scope := .jstr "sc"
          expires_at := some 4600 } =
      jGet [("access_token", .jstr "newA"), ("expires_in", .jint 3600)] "access_token" ∧
    RefreshRow.refresh_token
        { access_token := some (.jstr "newA")
          refresh_token := .jstr "oldR"
          token_type := .jstr "Bearer"
          scope := .jstr "sc"
          expires_at := some 4600 } =
      (jGet [("access_token", .jstr "newA"), ("expires_in", .jint 3600)] "refresh_token").getD
        oldRefreshRow.refresh_token :=
  ⟨(C9_refresh_overwrites oldRefreshRow
      [("access_token", .jstr "newA"), ("expires_in", .jint 3600)] 1000 _ rfl).1,
   (C9_refresh_overwrites oldRefreshRow
      [("access_token", .jstr "newA"), ("expires_in", .jint 3600)] 1000 _ rfl).2.2.1⟩

/-- Any match produced by `check_flight_directory` carries the checked
directory's name as its `flight_name`. -/
theorem check_flight_directory_name {fs : Listing} {sid g : String}
    {fi : FlightInfo} (h : check_flight_directory fs sid g = some fi) :
    fi.flight_name = g := by
  rcases h1 : fs (codeEndpoint sid g) with _ | cl
  · simp [check_flight_directory, h1] at h
  · by_cases hany : cl.any isImagesDir = true
    · rcases h2 : fs (imagesEndpoint sid g) with _ | il
      · simp [check_flight_directory, h1, hany, h2] at h
      · by_cases hk : (il.filter isJpgFile).length > 0
        · simp only [check_flight_directory, h1, hany, h2, hk, Bool.not_true,
            Bool.false_eq_true, if_false, if_true, Option.some_inj] at h
          rw [← h]
        · simp [check_flight_directory, h1, hany, h2, hk] at h
    · simp [check_flight_directory, h1, hany] at h

/-- The flights a scan reports for a name `f` that never occurs as a
top-level directory entry: none. -/
theorem scan_filter_of_countP_zero (fs : Listing) (sid f : String)
    (rl : List RemoteItem) (h0 : rl.countP (dirNamed f) = 0) :
    ((rl.filter isNamedDir).filterMap (checkItem fs sid)).filter
        (flightNamed f) = [] := by
  induction rl with
  | nil => rfl
  | cons it rest ih =>
    by_cases hd : dirNamed f it = true
    · rw [List.countP_cons_of_pos _ _ hd] at h0
      omega
    · rw [List.countP_cons_of_neg _ _ hd] at h0
      by_cases hp : isNamedDir it = true
      · rw [List.filter_cons_of_pos hp]
        rcases hcc : checkItem fs sid it with _ | fi
        · rw [List.filterMap_cons_none hcc]
          exact ih h0
        · rw [List.filterMap_cons_some hcc]
          have hname : fi.flight_name = it.name := check_flight_directory_name hcc
          have hne : ¬ flightNamed f fi = true := by
            unfold flightNamed
            rw [hname]
            intro hcontra
            apply hd
            unfold dirNamed
            unfold isNamedDir at hp
            rw [Bool.and_eq_true] at hp
            rw [hp.1, hcontra]
            rfl
          rw [List.filter_cons_of_neg hne]
          exact ih h0
      · rw [List.filter_cons_of_neg hp]
        exact ih h0

/-- The flights a scan reports for a name `f` occurring exactly once as a
top-level directory entry: exactly the result of checking `f`. -/
theorem scan_filter_of_countP_one (fs : Listing) (sid f : String)
    (hf : f ≠ "") (rl : List RemoteItem) (h1 : rl.countP (dirNamed f) = 1) :
    ((rl.filter isNamedDir).filterMap (checkItem fs sid)).filter
        (flightNamed f) =
      (check_flight_directory fs sid f).toList := by
  induction rl with
  | nil => simp [List.countP_nil] at h1
  | cons it rest ih =>
    by_cases hd : dirNamed f it = true
    · rw [List.countP_cons_of_pos _ _ hd] at h1
      have hrest : rest.countP (dirNamed f) = 0 := by omega
      unfold dirNamed at hd
      rw [Bool.and_eq_true] at hd
      have hnamef : it.name = f := by
        have := hd.2
        simpa using this
      have hp : isNamedDir it = true := by
        unfold isNamedDir
        rw [hd.1, Bool.true_and, hnamef]
        simpa using hf
      rw [List.filter_cons_of_pos hp]
      rcases hcc : checkItem fs sid it with _ | fi
      · rw [List.filterMap_cons_none hcc]
        unfold checkItem at hcc
        rw [hnamef] at hcc
        rw [hcc]
        exact scan_filter_of_countP_zero fs sid f rest hrest
      · rw [List.filterMap_cons_some hcc]
        unfold checkItem at hcc
        rw [hnamef] at hcc
        have hname : fi.flight_name = f := check_flight_directory_name hcc
        have hpos : flightNamed f fi = true := by
          unfold flightNamed
          rw [hname]
          exact beq_self_eq_true f
        rw [List.filter_cons_of_pos hpos, hcc, Option.toList_some,
          scan_filter_of_countP_zero fs sid f rest hrest]
    · rw [List.countP_cons_of_neg _ _ hd] at h1
      by_cases hp : isNamedDir it = true
      · rw [List.filter_cons_of_pos hp]
        rcases hcc : checkItem fs sid it with _ | fi
        · rw [List.filterMap_cons_none hcc]
          exact ih h1
        · rw [List.filterMap_cons_some hcc]
          have hname : fi.flight_name = it.name := check_flight_directory_name hcc
          have hne : ¬ flightNamed f fi = true := by
            unfold flightNamed
            rw [hname]
            intro hcontra
            apply hd
            unfold dirNamed
            unfold isNamedDir at hp
            rw [Bool.and_eq_true] at hp
            rw [hp.1, hcontra]
            rfl
          rw [List.filter_cons_of_neg hne]
          exact ih h1
      · rw [List.filter_cons_of_neg hp]
        exact ih h1

/-- The flights a scan reports for a name `f` whose directory check fails:
none, regardless of how often `f` is listed. -/
theorem scan_filter_of_check_none (fs : Listing) (sid f : String)
    (rl : List RemoteItem) (hc : check_flight_directory fs sid f = none) :
    ((rl.filter isNamedDir).filterMap (checkItem fs sid)).filter
        (flightNamed f) = [] := by
  induction rl with
  | nil => rfl
  | cons it rest ih =>
    by_cases hp : isNamedDir it = true
    · rw [List.filter_cons_of_pos hp]
      rcases hcc : checkItem fs sid it with _ | fi
      · rw [List.filterMap_cons_none hcc]
        exact ih
      · rw [List.filterMap_cons_some hcc]
        have hname : fi.flight_name = it.name := check_flight_directory_name hcc
        have hne : ¬ flightNamed f fi = true := by
          unfold flightNamed
          rw [hname]
          intro hcontra
          have hnf : it.name = f := by simpa using hcontra
          unfold checkItem at hcc
          rw [hnf, hc] at hcc
          cases hcc
        rw [List.filter_cons_of_neg hne]
        exact ih
    · rw [List.filter_cons_of_neg hp]
      exact ih

/-- C2: for every system scan, a top-level flight directory whose
`{flight}/code` listing contains a subdirectory named `images` and whose
`{flight}/code/images` listing contains exactly one file with a
case-insensitive `.jpg`/`.jpeg` name yields exactly one match, with
`image_count = 1`; a flight directory whose `code` listing has no `images`
subdirectory yields no match. -/
theorem C2_scan_matches :
    (∀ (fs : Listing) (sid f : String) (rl cl il : List RemoteItem),
      f ≠ "" →
      fs (rootEndpoint sid) = some rl →
      rl.countP (dirNamed f) = 1 →
      fs (codeEndpoint sid f) = some cl →
      cl.any isImagesDir = true →
      fs (imagesEndpoint sid f) = some il →
      (il.filter isJpgFile).length = 1 →
      (scan_system_for_flights fs sid).filter (flightNamed f) =
        [{ flight_name := f, system_id := sid,
           images_path := f ++ "/code/images", image_count := 1 }]) ∧
    (∀ (fs : Listing) (sid f : String) (rl cl : List RemoteItem),
      fs (rootEndpoint sid) = some rl →
      fs (codeEndpoint sid f) = some cl →
      cl.any isImagesDir = false →
      (scan_system_for_flights fs sid).filter (flightNamed f) = []) := by
  constructor
  · intro fs sid f rl cl il hf hroot hcount hcode hany himg hjpg
    unfold scan_system_for_flights
    rw [hroot]
    rw [scan_filter_of_countP_one fs sid f hf rl hcount]
    unfold check_flight_directory
    rw [hcode]
    simp [hany, himg, hjpg]
  · intro fs sid f rl cl hroot hcode hany
    unfold scan_system_for_flights
    rw [hroot]
    apply scan_filter_of_check_none
    unfold check_flight_directory
    rw [hcode]
    simp [hany]

/-- Witness for C2: concrete listings — `FlightX/code/images/a.JPG` yields
the single match with `image_count = 1`, and a `code` listing without an
`images` subdirectory yields no match. -/
theorem C2_scan_matches_witness :
    (scan_system_for_flights fsGood "sys1").filter (flightNamed "FlightX") =
      [{ flight_name := "FlightX", system_id := "sys1",
         images_path := "FlightX" ++ "/code/images", image_count := 1 }] ∧
    (scan_system_for_flights fsNoImages "sys1").filter (flightNamed "FlightX") =
      [] :=
  ⟨C2_scan_matches.1 fsGood "sys1" "FlightX"
      [⟨"dir", "FlightX"⟩, ⟨"dir", "Other"⟩] [⟨"dir", "images"⟩]
      [⟨"file", "a.JPG"⟩, ⟨"file", "readme.txt"⟩]
      (by decide) (by decide) (by decide) (by decide) (by decide) (by decide)
      (by decide),
   C2_scan_matches.2 fsNoImages "sys1" "FlightX"
      [⟨"dir", "FlightX"⟩] [⟨"dir", "data"⟩, ⟨"file", "notes.txt"⟩]
      (by decide) (by decide) (by decide)⟩

/-- `isPrefixB` decides list prefixing. -/
theorem isPrefixB_iff (n : List Char) :
    ∀ h : List Char, isPrefixB n h = true ↔ n <+: h := by
  induction n with
  | nil => intro h; simp [isPrefixB]
  | cons a as ih =>
    intro h
    cases h with
    | nil => simp [isPrefixB, List.prefix_nil]
    | cons b bs =>
      simp only [isPrefixB, Bool.and_eq_true, beq_iff_eq, List.cons_prefix_cons]
      rw [ih bs]

/-- `isInfixB` decides contiguous-substring containment. -/
theorem isInfixB_iff (n : List Char) :
    ∀ h : List Char, isInfixB n h = true ↔ n <:+: h := by
  intro h
  induction h with
  | nil =>
    simp only [isInfixB, isPrefixB_iff, List.prefix_nil, List.infix_nil]
  | cons b bs ih =>
    simp only [isInfixB, Bool.or_eq_true, isPrefixB_iff, ih, List.infix_cons_iff]

/-- A case-sensitive substring of the tag string is found by the
case-insensitive `icontains` lookup. -/
theorem icontains_of_infix {hay needle : String}
    (h : needle.data <:+: hay.data) : icontains hay needle = true := by
  unfold icontains
  rw [isInfixB_iff]
  exact List.IsInfix.map Char.toLower h

/-- `_find_existing_project` finds something whenever some project of the
owner contains the flight's tag pair as a substring. -/
theorem find_existing_of_member {user : String} {flight : FlightInfo}
    {projects : List Project} {p : Project} (hp : p ∈ projects)
    (howner : p.owner = user)
    (htag : (flight.system_id ++ "," ++ flight.flight_name).data <:+: p.tags.data) :
    find_existing_project user flight projects ≠ none := by
  unfold find_existing_project
  intro hnone
  rw [List.find?_eq_none] at hnone
  apply hnone p hp
  rw [Bool.and_eq_true]
  constructor
  · rw [howner]
    exact beq_self_eq_true user
  · exact icontains_of_infix htag

/-- C3: if an owner already has a project whose tag string contains the
substring `"{system_id},{flight_name}"` of a flight, discovery creates no
project for that `(system_id, flight_name)` pair — the existing-project
check is a case-insensitive substring search over the owner's project
tags. -/
theorem C3_no_duplicate_projects (user : String) (flights : List FlightInfo)
    (projects : List Project) (p : Project) (f : FlightInfo)
    (hp : p ∈ projects) (howner : p.owner = user)
    (htag : (f.system_id ++ "," ++ f.flight_name).data <:+: p.tags.data) :
    ((discover_and_create_projects user flights projects).2.filter
        (createdForFlight f)) = [] := by
  induction flights generalizing projects with
  | nil => rfl
  | cons g rest ih =>
    unfold discover_and_create_projects
    rcases hex : find_existing_project user g projects with _ | q
    · have hne : ¬ createdForFlight f (create_project_from_flight user g, g) = true := by
        intro hcontra
        unfold createdForFlight at hcontra
        rw [Bool.and_eq_true] at hcontra
        have hsys : g.system_id = f.system_id := by
          have := hcontra.1
          simpa using this
        have hfn : g.flight_name = f.flight_name := by
          have := hcontra.2
          simpa using this
        apply find_existing_of_member hp howner _ hex
        rw [hsys, hfn]
        exact htag
      simp only
      rw [List.filter_cons_of_neg hne]
      exact ih (projects ++ [create_project_from_flight user g])
        (List.mem_append_left _ hp)
    · simp only
      exact ih projects hp

/-- Witness for C3: with an existing tagged project for `FlightX` on
`sys1`, discovery of that same flight creates nothing for it. -/
theorem C3_no_duplicate_projects_witness :
    ((discover_and_create_projects "alice" [flightX] [projX]).2.filter
        (createdForFlight flightX)) = [] :=
  C3_no_duplicate_projects "alice" [flightX] [projX] projX flightX
    (List.mem_singleton_self projX) rfl
    ⟨"tapis,flight,".data, [], by decide⟩

/-- The backend's `or`-chain of username claims equals the first truthy
claim in order when one exists, and otherwise yields nothing truthy. -/
theorem firstTruthy_spec (payload : Payload) :
    firstTruthyClaim payload usernameKeys =
      (if truthyOpt (usernameChain payload) = true then usernameChain payload
       else none) := by
  unfold usernameKeys usernameChain
  rcases h1 : jGet payload "tapis/username" with _ | v1 <;>
    rcases h2 : jGet payload "username" with _ | v2 <;>
      rcases h3 : jGet payload "sub" with _ | v3 <;>
        simp only [firstTruthyClaim, h1, h2, h3, pyOr, truthyOpt] <;>
        split_ifs <;> simp_all [truthyOpt]

/-- C4 counterexample: (a) a payload with `exp = 0` (an expiry in the
past) is nevertheless accepted, because Python's truthiness check skips
the comparison for a zero `exp`; (b) a payload whose provider-namespaced
username claim is present but empty yields the plain `username` claim
(`"bob"`), not the first *present* claim (`""`). -/
theorem C4_counterexample :
    (jGet payloadExpZero "exp" = some (.jint 0) ∧ (0 : Int) < 1700000000 ∧
      validate_token_with_tapis (fun _ => some payloadExpZero) "tacc"
        1700000000 "h.p.s" ≠ none) ∧
    (jGet payloadEmptyTapisUser "tapis/username" = some (.jstr "") ∧
      (validate_token_with_tapis (fun _ => some payloadEmptyTapisUser) "tacc"
          1700000000 "h.p.s").map UserInfo.username =
        some (some (.jstr "bob"))) := by
  refine ⟨⟨by decide, by decide, by decide⟩, ⟨by decide, by decide⟩⟩

/-- C4 (amended): for a 3-segment token whose padded second segment
decodes to a JSON payload, the extracted username is the first of the
`tapis/username`, `username`, `sub` claims whose value is truthy (present
and non-empty); decoding yields no identity whenever the `exp` claim is a
non-zero integer in the past, or when no username claim resolves to a
truthy value. -/
theorem C4_jwt_identity (decode : List Char → Option Payload)
    (tenantDefault : String) (now : Int) (tok : String)
    (hd pl sg : List Char) (payload : Payload)
    (hsplit : splitOnDot tok.data = [hd, pl, sg])
    (hdec : decode (addB64Padding pl) = some payload) :
    (∀ info, validate_token_with_tapis decode tenantDefault now tok = some info →
      info.username = firstTruthyClaim payload usernameKeys) ∧
    ((∃ n, jGet payload "exp" = some (.jint n) ∧ n ≠ 0 ∧ now > n) →
      validate_token_with_tapis decode tenantDefault now tok = none) ∧
    (firstTruthyClaim payload usernameKeys = none →
      validate_token_with_tapis decode tenantDefault now tok = none) := by
  have hchain : usernameChain payload =
      pyOr (jGet payload "tapis/username")
        (pyOr (jGet payload "username") (jGet payload "sub")) := rfl
  refine ⟨?_, ?_, ?_⟩
  · intro info hsome
    simp only [validate_token_with_tapis, hsplit, hdec] at hsome
    rw [← hchain] at hsome
    rw [firstTruthy_spec]
    rcases hexp : jGet payload "exp" with _ | e <;>
      rw [hexp] at hsome <;> dsimp only at hsome
    · by_cases hct : truthyOpt (usernameChain payload) = true
      · rw [if_pos hct] at hsome ⊢
        cases hsome
        rfl
      · rw [if_neg hct] at hsome
        exact Option.noConfusion hsome
    · by_cases het : e.truthy = true
      · rw [if_pos het] at hsome
        rcases hpi : e.asPyInt with _ | m <;>
          rw [hpi] at hsome <;> dsimp only at hsome
        · exact Option.noConfusion hsome
        · by_cases hlt : now > m
          · rw [if_pos hlt] at hsome
            exact Option.noConfusion hsome
          · rw [if_neg hlt] at hsome
            by_cases hct : truthyOpt (usernameChain payload) = true
            · rw [if_pos hct] at hsome ⊢
              cases hsome
              rfl
            · rw [if_neg hct] at hsome
              exact Option.noConfusion hsome
      · rw [if_neg het] at hsome
        by_cases hct : truthyOpt (usernameChain payload) = true
        · rw [if_pos hct] at hsome ⊢
          cases hsome
          rfl
        · rw [if_neg hct] at hsome
          exact Option.noConfusion hsome
  · rintro ⟨n, hexp, hn0, hlt⟩
    simp only [validate_token_with_tapis, hsplit, hdec, hexp]
    have htr : JVal.truthy (.jint n) = true := by
      simp [JVal.truthy, hn0]
    rw [htr]
    simp only [JVal.asPyInt, if_true]
    rw [if_pos hlt]
  · intro hnone
    have hcf : truthyOpt (usernameChain payload) = false := by
      by_contra hcontra
      rw [Bool.not_eq_false] at hcontra
      rw [firstTruthy_spec, if_pos hcontra] at hnone
      rw [hnone] at hcontra
      simp [truthyOpt] at hcontra
    simp only [validate_token_with_tapis, hsplit, hdec]
    rw [← hchain]
    rcases hexp : jGet payload "exp" with _ | e <;> dsimp only
    · rw [if_neg (by rw [hcf]; exact Bool.false_ne_true)]
    · by_cases het : e.truthy = true
      · rw [if_pos het]
        rcases hpi : e.asPyInt with _ | m <;> dsimp only
        · by_cases hlt : now > m
          · rw [if_pos hlt]
          · rw [if_neg hlt]
            rw [if_neg (by rw [hcf]; exact Bool.false_ne_true)]
      · rw [if_neg het]
        rw [if_neg (by rw [hcf]; exact Bool.false_ne_true)]

/-- Witness for C4's amended statement: for the far-future `alice`
payload, the extracted username equals the first truthy claim. -/
theorem C4_jwt_identity_witness :
    (validate_token_with_tapis goodDecode "tacc" 1700000000 "h.p.s").map
        UserInfo.username =
      some (firstTruthyClaim goodPayload usernameKeys) := by
  have h := (C4_jwt_identity goodDecode "tacc" 1700000000 "h.p.s"
    ['h'] ['p'] ['s'] goodPayload (by decide) rfl).1
  rcases hv : validate_token_with_tapis goodDecode "tacc" 1700000000 "h.p.s"
    with _ | info
  · exact absurd hv (by decide)
  · rw [Option.map_some', h info hv]

/-- Erasing the unique row matching `p` from a list leaves no row
matching `p`. -/
theorem filter_erase_of_filter_singleton {α : Type} [DecidableEq α]
    {l : List α} {p : α → Bool} {r : α} (h : l.filter p = [r]) :
    (l.erase r).filter p = [] := by
  induction l with
  | nil => exact List.noConfusion h
  | cons a t ih =>
    by_cases hpa : p a = true
    · rw [List.filter_cons_of_pos hpa] at h
      have ha : a = r := (List.cons_eq_cons.mp h).1
      have ht : t.filter p = [] := (List.cons_eq_cons.mp h).2
      subst ha
      rw [List.erase_cons_head a t]
      exact ht
    · rw [List.filter_cons_of_neg hpa] at h
      have hpr : p r = true := by
        have hmem : r ∈ t.filter p := by
          rw [h]
          exact List.mem_singleton_self r
        exact (List.mem_filter.mp hmem).2
      have hne : ¬(a == r) = true := by
        intro hcontra
        apply hpa
        have : a = r := by simpa using hcontra
        rw [this]
        exact hpr
      rw [List.erase_cons_tail hne, List.filter_cons_of_neg hpa]
      exact ih h

/-- An upserted token row is present in the resulting token table. -/
theorem mem_upsertToken (row : TokenRowFull) (toks : List TokenRowFull) :
    row ∈ upsertToken row toks := by
  unfold upsertToken
  by_cases hany : toks.any
      (fun t => t.userName == row.userName && t.clientId == row.clientId) = true
  · rw [if_pos hany]
    obtain ⟨t, hmem, hpred⟩ := List.any_eq_true.mp hany
    apply List.mem_map.mpr
    refine ⟨t, hmem, ?_⟩
    rw [if_pos hpred]
  · rw [if_neg hany]
    exact List.mem_append_right toks (List.mem_singleton_self row)

/-- When `int(expires_in)` cannot raise, `_store_user_tokens` always
produces a row, and that row's `access_token` is the raw response
value. -/
theorem store_user_tokens_row_of_ok (user : JVal) (clientId : String)
    (td : TokenData) (now : Int) (hok : expiresInOk td.expires_in = true) :
    ∃ row, store_user_tokens_row user clientId td now = some row ∧
      row.access_token = td.access_token := by
  unfold store_user_tokens_row pyExpiresAt
  rcases he : td.expires_in with _ | v
  · exact ⟨_, rfl, rfl⟩
  · rw [he] at hok
    unfold expiresInOk at hok
    dsimp only at hok ⊢
    by_cases htv : v.truthy = true
    · rcases hpi : v.asPyInt with _ | n
      · rw [htv, hpi] at hok
        simp at hok
      · rw [htv]
        exact ⟨_, rfl, rfl⟩
    · rw [Bool.not_eq_true _ |>.mp htv]
      exact ⟨_, rfl, rfl⟩

/-- Shape of a successful callback: the request's parameters passed the
guards, the state lookup found exactly one unexpired row, the exchange
succeeded, and the resulting database has that state row erased and the
authenticated user's tokens stored. -/
theorem callback_success_shape (env : CallbackEnv) (now : Int)
    (code st er : Option String) (db : Db) (u : String)
    (h : (callback_get env now code st er db).1 = .redirectTo u) :
    pyTruthy er = false ∧ pyTruthy code = true ∧ pyTruthy st = true ∧
    ∃ r td user,
      db.states.filter (fun x => x.stateVal == st.getD "") = [r] ∧
      r.is_expired now = false ∧
      env.exchangeResult = some td ∧
      callback_get env now code st er db =
        (.redirectTo (if r.redirect_after_auth != "" then r.redirect_after_auth
          else "/dashboard/"),
         { states := db.states.erase r,
           tokens := store_user_tokens user r.clientId td now db.tokens }) := by
  unfold callback_get at h
  by_cases her : pyTruthy er = true
  · rw [if_pos her] at h
    exact CallbackResponse.noConfusion h
  · rw [if_neg her] at h
    by_cases hcs : (!pyTruthy code || !pyTruthy st) = true
    · rw [if_pos hcs] at h
      exact CallbackResponse.noConfusion h
    · rw [if_neg hcs] at h
      have hcode : pyTruthy code = true := by
        rcases Bool.or_eq_false_iff.mp (Bool.not_eq_true _ |>.mp hcs) with ⟨h1, _⟩
        simpa using h1
      have hst : pyTruthy st = true := by
        rcases Bool.or_eq_false_iff.mp (Bool.not_eq_true _ |>.mp hcs) with ⟨_, h2⟩
        simpa using h2
      refine ⟨Bool.not_eq_true _ |>.mp her, hcode, hst, ?_⟩
      rcases hfl : db.states.filter (fun x => x.stateVal == st.getD "")
        with _ | ⟨r, _ | ⟨r2, rest⟩⟩ <;> rw [hfl] at h <;> dsimp only at h
      · exact CallbackResponse.noConfusion h
      · by_cases hexp : r.is_expired now = true
        · rw [if_pos hexp] at h
          exact CallbackResponse.noConfusion h
        · rw [if_neg hexp] at h
          rcases hex : env.exchangeResult with _ | td <;>
            rw [hex] at h <;> dsimp only at h
          · exact CallbackResponse.noConfusion h
          · rcases hat : td.access_token with _ | atField <;>
              rw [hat] at h <;> dsimp only at h
            · exact CallbackResponse.noConfusion h
            · rcases hjw : extractJwt atField with _ | jwt <;>
                rw [hjw] at h <;> dsimp only at h
              · exact CallbackResponse.noConfusion h
              · rcases hau : backend_authenticate env now jwt with _ | user <;>
                  rw [hau] at h <;> dsimp only at h
                · exact CallbackResponse.noConfusion h
                · refine ⟨r, td, user, hfl, Bool.not_eq_true _ |>.mp hexp,
                    rfl, ?_⟩
                  unfold callback_get
                  rw [if_neg her, if_neg hcs, hfl]
                  dsimp only
                  rw [if_neg hexp, hex]
                  dsimp only
                  rw [hat]
                  dsimp only
                  rw [hjw]
                  dsimp only
                  rw [hau]
      · exact CallbackResponse.noConfusion h

/-- C1: a successful callback deletes the consumed state row, so any
subsequent callback presenting the same state value (with a code and no
provider error) answers HTTP 400 "Invalid OAuth2 state". -/
theorem C1_state_single_use (env env2 : CallbackEnv) (now now2 : Int)
    (code code2 : Option String) (s u : String) (db : Db)
    (hsucc : (callback_get env now code (some s) none db).1 = .redirectTo u)
    (hcode2 : pyTruthy code2 = true) :
    ((callback_get env now code (some s) none db).2.states.filter
        (fun x => x.stateVal == s)) = [] ∧
    (callback_get env2 now2 code2 (some s) none
        (callback_get env now code (some s) none db).2).1 =
      .badRequest "Invalid OAuth2 state" := by
  obtain ⟨her, hcode, hst, r, td, user, hfl, hexp, hex, heq⟩ :=
    callback_success_shape env now code (some s) none db u hsucc
  rw [show (some s).getD "" = s from rfl] at hfl
  have hdb2 : (callback_get env now code (some s) none db).2 =
      { states := db.states.erase r,
        tokens := store_user_tokens user r.clientId td now db.tokens } :=
    congrArg Prod.snd heq
  have hempty : (db.states.erase r).filter (fun x => x.stateVal == s) = [] :=
    filter_erase_of_filter_singleton hfl
  constructor
  · rw [hdb2]
    exact hempty
  · rw [hdb2]
    unfold callback_get
    rw [if_neg (show ¬(pyTruthy none = true) by decide)]
    rw [if_neg (show ¬((!pyTruthy code2 || !pyTruthy (some s)) = true) by
      rw [hcode2, hst]; decide)]
    dsimp only
    rw [show (some s).getD "" = s from rfl, hempty]

/-- Witness for C1 at a concrete successful login: the state row is gone
and the replayed callback is rejected as an invalid state. -/
theorem C1_state_single_use_witness :
    ((callback_get goodEnv 100 (some "thecode") (some "S1") none dbS1).2.states.filter
        (fun x => x.stateVal == "S1")) = [] ∧
    (callback_get goodEnv 100 (some "thecode") (some "S1") none
        (callback_get goodEnv 100 (some "thecode") (some "S1") none dbS1).2).1 =
      .badRequest "Invalid OAuth2 state" :=
  C1_state_single_use goodEnv goodEnv 100 100 (some "thecode") (some "thecode")
    "S1" "/after/" dbS1 (by decide) (by decide)

/-- C5 counterexample: a state created at `T = 0` expires at 600 seconds,
and a callback presenting it at exactly `T + 600` is still accepted
(redirect), not rejected as expired — the code's check is strict
(`now > expires_at`), so rejection starts strictly after `T + 10min`. -/
theorem C5_counterexample :
    (authorize_create_state 0 "S1" "/after/" "democlient").expires_at = 0 + 600 ∧
    (callback_get goodEnv 600 (some "thecode") (some "S1") none
        { states := [authorize_create_state 0 "S1" "/after/" "democlient"],
          tokens := [] }).1 = .redirectTo "/after/" ∧
    CallbackResponse.redirectTo "/after/" ≠ .badRequest "OAuth2 state expired" :=
  ⟨rfl, by decide, by decide⟩

/-- C5 (amended): a state created at `T` carries expiry `T + 600` seconds,
and a callback presenting it is rejected as expired exactly when the
callback time is strictly greater than `T + 600` (so the state is still
accepted at exactly `T + 10` minutes). -/
theorem C5_state_expiry_window (T now : Int) (sv ra cid : String)
    (env : CallbackEnv) (code : Option String) (toks : List TokenRowFull)
    (hsv : sv ≠ "") (hcode : pyTruthy code = true) :
    (authorize_create_state T sv ra cid).expires_at = T + 600 ∧
    ((callback_get env now code (some sv) none
        { states := [authorize_create_state T sv ra cid], tokens := toks }).1 =
      .badRequest "OAuth2 state expired" ↔ now > T + 600) := by
  refine ⟨rfl, ?_⟩
  unfold callback_get
  rw [if_neg (show ¬(pyTruthy none = true) by decide)]
  rw [if_neg (show ¬((!pyTruthy code || !pyTruthy (some sv)) = true) by
    rw [hcode]; simp [pyTruthy, hsv])]
  dsimp only
  have hfl : List.filter (fun x => x.stateVal == (some sv).getD "")
      [authorize_create_state T sv ra cid] =
      [authorize_create_state T sv ra cid] := by
    simp [authorize_create_state]
  rw [hfl]
  dsimp only
  have hexpval : (authorize_create_state T sv ra cid).is_expired now =
      decide (now > T + 600) := rfl
  by_cases hgt : now > T + 600
  · rw [if_pos (by rw [hexpval]; exact decide_eq_true hgt)]
    simp [hgt]
  · rw [if_neg (by rw [hexpval]; simp [hgt])]
    rcases env.exchangeResult with _ | td
    · simp [hgt]
    · dsimp only
      rcases td.access_token with _ | atf
      · simp [hgt]
      · dsimp only
        rcases extractJwt atf with _ | jwt
        · simp [hgt]
        · dsimp only
          rcases backend_authenticate env now jwt with _ | user <;>
            simp [hgt]

/-- Witness for C5's amended statement: at time 601 the state created at
time 0 is rejected as expired. -/
theorem C5_state_expiry_window_witness :
    (authorize_create_state 0 "S1" "/after/" "democlient").expires_at = 0 + 600 ∧
    (callback_get goodEnv 601 (some "thecode") (some "S1") none
        { states := [authorize_create_state 0 "S1" "/after/" "democlient"],
          tokens := [] }).1 = .badRequest "OAuth2 state expired" := by
  have h := C5_state_expiry_window 0 601 "S1" "/after/" "democlient" goodEnv
    (some "thecode") [] (by decide) (by decide)
  exact ⟨h.1, h.2.mpr (by decide)⟩

/-- C10: when the provider's unwrapped result carries the nested
access-token shape, a successful callback persists the raw nested dict in
the token store's `access_token` field — not the bare JWT string the
session was authenticated with. -/
theorem C10_persists_raw_nested_token (env : CallbackEnv) (now : Int)
    (code st : Option String) (db : Db) (u jwt : String)
    (td : TokenData) (d : List (String × JVal))
    (hex : env.exchangeResult = some td)
    (hat : td.access_token = some (.fdict d))
    (hjwt : dGet d "access_token" = some (.jstr jwt))
    (hok : expiresInOk td.expires_in = true)
    (hsucc : (callback_get env now code st none db).1 = .redirectTo u) :
    ((callback_get env now code st none db).2.tokens.any (fun row =>
        row.access_token == some (AccessTokenField.fdict d) &&
        !(row.access_token == some (.fstr jwt)))) = true := by
  obtain ⟨her, hcode, hst, r, td', user, hfl, hexp, hex', heq⟩ :=
    callback_success_shape env now code st none db u hsucc
  have htd : td' = td := by
    rw [hex] at hex'
    exact (Option.some_inj.mp hex').symm
  subst htd
  have hdb2 : (callback_get env now code st none db).2 =
      { states := db.states.erase r,
        tokens := store_user_tokens user r.clientId td' now db.tokens } :=
    congrArg Prod.snd heq
  rw [hdb2]
  dsimp only
  obtain ⟨row, hrow, hracc⟩ :=
    store_user_tokens_row_of_ok user r.clientId td' now hok
  unfold store_user_tokens
  rw [hrow]
  apply List.any_eq_true.mpr
  refine ⟨row, mem_upsertToken row db.tokens, ?_⟩
  rw [hracc, hat]
  simp

/-- Witness for C10: a concrete callback with the nested token shape
stores the raw dict, which differs from the bare JWT string. -/
theorem C10_persists_raw_nested_token_witness :
    ((callback_get nestedEnv 100 (some "thecode") (some "S1") none dbS1).2.tokens.any
        (fun row =>
          row.access_token == some (AccessTokenField.fdict nestedDict) &&
          !(row.access_token == some (.fstr "h.p.s")))) = true :=
  C10_persists_raw_nested_token nestedEnv 100 (some "thecode") (some "S1")
    dbS1 "/after/" "h.p.s" nestedTokenData nestedDict rfl rfl (by decide)
    (by decide) (by decide)

end WebODM
